import Mathlib

/-!
# SynchroConnect — contact recurrence/scheduling engine, shallow embedding

This file embeds the scheduling core of `backend/server.py`:

* the pipeline-stage catalog (`calculate_target_interval`,
  `calculate_target_interval_async`),
* the proportional due-date calculator
  (`calculate_next_due_with_random_factor`),
* the contact lifecycle operations (`create_contact`, `update_contact`,
  `move_pipeline`, `log_interaction`, `mark_draft_sent`,
  `move_contacts_to_new`, `delete_contact`),
* the morning-briefing bucketing loop of `generate_ai_briefing`.

Modelling conventions:

* Timestamps (`datetime`) are integers counting seconds; `timedelta(days = d)`
  is `d * 86400`. `timedelta.days` is floored division by `86400`
  (Python semantics, also for negative spans), i.e. `Int.fdiv`.
* ISO date strings stored in documents always round-trip through
  `isoformat`/`fromisoformat`, so stored dates are modelled by their parsed
  value `Option Int` (Python `None` is `none`). The string level of
  `calculate_next_due_with_random_factor` — where unparseable input matters —
  is modelled separately by `calculate_next_due_str`, parameterised by a
  parse function standing for `datetime.fromisoformat` (which either yields
  a value or raises, caught by the bare `except`).
* `random.randint lo hi` is modelled by an abstract source `Rand`;
  `Rand.ok` states the range contract of `randint` (result in `[lo, hi]`).
* The Mongo collections are modelled as: `contacts` and `drafts` as maps
  `String → Option _` keyed by `_id` (`_id` is unique in Mongo), and
  `interactions` as an insertion-ordered list.
-/

namespace SynchroConnect

/-- Abstract random source standing for Python's process-wide `random`. -/
structure Rand where
  draw : Int → Int → Int

/-- The contract of `random.randint lo hi`: the draw lies in `[lo, hi]`. -/
def Rand.ok (r : Rand) : Prop :=
  ∀ lo hi : Int, lo ≤ hi → lo ≤ r.draw lo hi ∧ r.draw lo hi ≤ hi

/-- A concrete random source (always returns the lower bound). -/
def loRand : Rand := ⟨fun lo _ => lo⟩

theorem loRand_ok : Rand.ok loRand :=
  fun _ _ h => ⟨le_refl _, h⟩

/-- One entry of a user's custom `pipeline_stages` table
(`PipelineStageConfig` in `server.py`; `color`/`enabled` are inert). -/
structure PipelineStageConfig where
  name : String
  interval_days : Int
  randomize : Bool := false
  random_variation : Int := 0
deriving DecidableEq

/-- The `DEFAULT_PIPELINE_STAGES` table from `server.py` (scheduling-relevant fields). -/
def DEFAULT_PIPELINE_STAGES : List PipelineStageConfig :=
  [ { name := "Weekly", interval_days := 7 },
    { name := "Bi-Weekly", interval_days := 14 },
    { name := "Monthly", interval_days := 30 },
    { name := "Quarterly", interval_days := 90 },
    { name := "Annually", interval_days := 365 } ]

/-- The `default_intervals` dict shared by `calculate_target_interval` and
`calculate_target_interval_async`, with the `.get(stage, 30)` fallback. -/
def default_intervals (stage : String) : Int :=
  if stage = "New" then 0
  else if stage = "Daily" then 1
  else if stage = "Weekly" then 7
  else if stage = "Bi-Weekly" then 14
  else if stage = "Monthly" then 30
  else if stage = "Quarterly" then 90
  else if stage = "Annually" then 365
  else 30

/-- Embeds `calculate_target_interval` (sync variant): default table only. -/
def calculate_target_interval (pipeline_stage : String) : Int :=
  default_intervals pipeline_stage

/-- The `for stage in user['pipeline_stages']` scan: first entry whose
`name` matches. -/
def lookupStage : List PipelineStageConfig → String → Option PipelineStageConfig
  | [], _ => none
  | s :: ss, stage => if s.name = stage then some s else lookupStage ss stage

/-- Embeds `calculate_target_interval_async`. Here `userStages = none` covers: no
`user_id` supplied, user not found, or the user document lacking
`pipeline_stages`; `some []` is the falsy empty table (also defaults).
Mirrors the source: the custom table is scanned *before* any sentinel
handling, custom randomization applies when `randomize` and
`random_variation > 0` (floored at 1 day), and unknown names fall back to
`default_intervals`. -/
def calculate_target_interval_async (r : Rand)
    (userStages : Option (List PipelineStageConfig))
    (pipeline_stage : String) (apply_randomization : Bool := true) : Int :=
  match userStages with
  | none => default_intervals pipeline_stage
  | some ss =>
    if ss = [] then default_intervals pipeline_stage
    else
      match lookupStage ss pipeline_stage with
      | some cfg =>
        if apply_randomization && cfg.randomize && cfg.random_variation > 0 then
          max 1 (cfg.interval_days + r.draw (-cfg.random_variation) cfg.random_variation)
        else
          cfg.interval_days
      | none => default_intervals pipeline_stage

/-- The proportional random factor of
`calculate_next_due_with_random_factor`: `0` for intervals `≤ 7`,
`randint (-1) 1` for intervals `≤ 30`, `randint (-3) 3` above. -/
def randomFactor (r : Rand) (target_interval_days : Int) : Int :=
  if target_interval_days ≤ 7 then 0
  else if target_interval_days ≤ 30 then r.draw (-1) 1
  else r.draw (-3) 3

/-- Embeds `calculate_next_due_with_random_factor` at the level of parsed dates:
anchor is `last_contact_date` when present, else "now"; the total offset is
`max (interval + random_factor) 1` days. -/
def calcNextDue (r : Rand) (now : Int) (last_contact_date : Option Int)
    (target_interval_days : Int) : Int :=
  let last_contact := last_contact_date.getD now
  let random_factor := randomFactor r target_interval_days
  let total_days := max (target_interval_days + random_factor) 1
  last_contact + total_days * 86400

/-- Embeds `calculate_next_due_with_random_factor` at the string level, for the
parsing/error-handling contract. `parse` stands for
`datetime.fromisoformat` after the `'Z' → '+00:00'` rewrite (`none` = the
call raises, caught by the bare `except`). A falsy argument (`None` or
`""`) is replaced by `utcnow().isoformat()`, which parses back to `now`. -/
def calculate_next_due_str (parse : String → Option Int) (r : Rand)
    (now : Int) (last_contact_date_str : Option String)
    (target_interval_days : Int) : Int :=
  let last_contact :=
    match last_contact_date_str with
    | none => now
    | some s => if s = "" then now else (parse s).getD now
  let random_factor := randomFactor r target_interval_days
  let total_days := max (target_interval_days + random_factor) 1
  last_contact + total_days * 86400

/-- The stored `Contact` document (`Contact` model in `server.py`).
Optional profile fields are Python `Optional[str]`; stored dates are
modelled by their parsed value (see module header). -/
structure Contact where
  user_id : String
  name : String
  phone : Option String := none
  email : Option String := none
  job : Option String := none
  location : Option String := none
  academic_degree : Option String := none
  birthday : Option String := none
  hobbies : Option String := none
  favorite_food : Option String := none
  how_we_met : Option String := none
  pipeline_stage : String := "Monthly"
  groups : List String := []
  language : String := "English"
  tone : String := "Casual"
  example_message : Option String := none
  conversation_screenshots : List String := []
  notes : Option String := none
  last_contact_date : Option Int := none
  next_due : Option Int := none
  target_interval_days : Int := 30
  profile_picture : Option String := none
  device_contact_id : Option String := none
  created_at : Int := 0
  updated_at : Int := 0
deriving DecidableEq

/-- The `ContactCreate` request body. -/
structure ContactCreate where
  name : String
  phone : Option String := none
  email : Option String := none
  job : Option String := none
  location : Option String := none
  academic_degree : Option String := none
  birthday : Option String := none
  hobbies : Option String := none
  favorite_food : Option String := none
  how_we_met : Option String := none
  pipeline_stage : String := "Monthly"
  groups : List String := []
  language : String := "English"
  tone : String := "Casual"
  example_message : Option String := none
  conversation_screenshots : List String := []
  notes : Option String := none
  last_contact_date : Option Int := none
  profile_picture : Option String := none
  device_contact_id : Option String := none
deriving DecidableEq

/-- The `ContactUpdate` request body: every field optional. A field that is
`none` models both "omitted" and "submitted as null" — pydantic's `.dict()`
yields `None` for both, and `update_contact` filters `None` values out. -/
structure ContactUpdate where
  name : Option String := none
  phone : Option String := none
  email : Option String := none
  job : Option String := none
  location : Option String := none
  academic_degree : Option String := none
  birthday : Option String := none
  hobbies : Option String := none
  favorite_food : Option String := none
  how_we_met : Option String := none
  pipeline_stage : Option String := none
  groups : Option (List String) := none
  language : Option String := none
  tone : Option String := none
  example_message : Option String := none
  conversation_screenshots : Option (List String) := none
  notes : Option String := none
  last_contact_date : Option Int := none
  profile_picture : Option String := none
  device_contact_id : Option String := none
deriving DecidableEq

/-- Stored `Interaction` document. -/
structure Interaction where
  contact_id : String
  user_id : String
  interaction_type : String
  date : Int
  notes : Option String := none
  created_at : Int := 0
deriving DecidableEq

/-- The `InteractionCreate` request body. -/
structure InteractionCreate where
  interaction_type : String
  date : Int
  notes : Option String := none
deriving DecidableEq

/-- Stored `Draft` document. -/
structure Draft where
  user_id : String
  contact_id : String
  contact_name : String
  draft_message : String
  status : String := "pending"
  created_at : Int := 0
deriving DecidableEq

/-- The document store: `contacts` and `drafts` keyed by their unique
Mongo `_id`; `interactions` as an insertion-ordered list (`insert_one`
appends, `delete_many` filters). -/
structure DB where
  contacts : String → Option Contact
  interactions : List Interaction
  drafts : String → Option Draft

/-- Embeds `db.contacts.find_one({"_id": cid, "user_id": uid})`. -/
def findContact (db : DB) (cid uid : String) : Option Contact :=
  match db.contacts cid with
  | some c => if c.user_id = uid then some c else none
  | none => none

/-- Embeds `db.drafts.find_one({"_id": did, "user_id": uid})`. -/
def findDraft (db : DB) (did uid : String) : Option Draft :=
  match db.drafts did with
  | some d => if d.user_id = uid then some d else none
  | none => none

/-- Embeds `update_one({"_id": cid}, {"$set": ...})` on `contacts` (no owner
filter — as in `move_pipeline`, `log_interaction`, `mark_draft_sent`). -/
def contactsSetById (f : String → Option Contact) (cid : String)
    (g : Contact → Contact) : String → Option Contact :=
  fun k => if k = cid then (f k).map g else f k

/-- Embeds `update_one({"_id": did}, {"$set": ...})` on `drafts`. -/
def draftsSetById (f : String → Option Draft) (did : String)
    (g : Draft → Draft) : String → Option Draft :=
  fun k => if k = did then (f k).map g else f k

/-- Embeds `POST /contacts` (`create_contact`): build the stored document and
insert it under the fresh id `newId`. The `"New"` sentinel branch clears
`last_contact_date`/`next_due` and caches interval `0`; otherwise
`last_contact_date` defaults to "now" (the guard is Python falsy: absent
or `None`), the interval comes from the sync catalog, and `next_due` from
the proportional calculator anchored at `last_contact_date`. -/
def create_contact (r : Rand) (now : Int) (db : DB) (uid : String)
    (contact : ContactCreate) (newId : String) : DB × Contact :=
  let base : Contact :=
    { user_id := uid
      name := contact.name
      phone := contact.phone
      email := contact.email
      job := contact.job
      location := contact.location
      academic_degree := contact.academic_degree
      birthday := contact.birthday
      hobbies := contact.hobbies
      favorite_food := contact.favorite_food
      how_we_met := contact.how_we_met
      pipeline_stage := contact.pipeline_stage
      groups := contact.groups
      language := contact.language
      tone := contact.tone
      example_message := contact.example_message
      conversation_screenshots := contact.conversation_screenshots
      notes := contact.notes
      last_contact_date := contact.last_contact_date
      profile_picture := contact.profile_picture
      device_contact_id := contact.device_contact_id
      created_at := now
      updated_at := now }
  let stored : Contact :=
    if contact.pipeline_stage = "New" then
      { base with target_interval_days := 0, next_due := none,
                  last_contact_date := none }
    else
      let lcd : Option Int :=
        match contact.last_contact_date with
        | none => some now
        | some d => some d
      let target := calculate_target_interval contact.pipeline_stage
      { base with last_contact_date := lcd
                  target_interval_days := target
                  next_due := some (calcNextDue r now lcd target) }
  ({ db with contacts := fun k => if k = newId then some stored else db.contacts k },
   stored)

/-- Embeds `PUT /contacts/{id}` (`update_contact`): drop `None` fields, stamp
`updated_at`, and when `pipeline_stage` or `last_contact_date` was
submitted re-resolve the interval (sync catalog) and recompute `next_due`
anchored at the new-or-existing `last_contact_date`. The `$set` is applied
to the document matching `{_id, user_id}`; no match is the not-found
(`none`) outcome. -/
def update_contact (r : Rand) (now : Int) (db : DB) (uid cid : String)
    (u : ContactUpdate) : DB × Option Contact :=
  match findContact db cid uid with
  | none => (db, none)
  | some existing =>
    let recompute := u.pipeline_stage.isSome || u.last_contact_date.isSome
    let stage := u.pipeline_stage.getD existing.pipeline_stage
    let lcd : Option Int :=
      match u.last_contact_date with
      | some d => some d
      | none => existing.last_contact_date
    let target := calculate_target_interval stage
    let updated : Contact :=
      { user_id := existing.user_id
        name := u.name.getD existing.name
        phone := (u.phone).orElse (fun _ => existing.phone)
        email := (u.email).orElse (fun _ => existing.email)
        job := (u.job).orElse (fun _ => existing.job)
        location := (u.location).orElse (fun _ => existing.location)
        academic_degree := (u.academic_degree).orElse (fun _ => existing.academic_degree)
        birthday := (u.birthday).orElse (fun _ => existing.birthday)
        hobbies := (u.hobbies).orElse (fun _ => existing.hobbies)
        favorite_food := (u.favorite_food).orElse (fun _ => existing.favorite_food)
        how_we_met := (u.how_we_met).orElse (fun _ => existing.how_we_met)
        pipeline_stage := u.pipeline_stage.getD existing.pipeline_stage
        groups := u.groups.getD existing.groups
        language := u.language.getD existing.language
        tone := u.tone.getD existing.tone
        example_message := (u.example_message).orElse (fun _ => existing.example_message)
        conversation_screenshots := u.conversation_screenshots.getD existing.conversation_screenshots
        notes := (u.notes).orElse (fun _ => existing.notes)
        last_contact_date :=
          match u.last_contact_date with
          | some d => some d
          | none => existing.last_contact_date
        next_due := if recompute then some (calcNextDue r now lcd target) else existing.next_due
        target_interval_days := if recompute then target else existing.target_interval_days
        profile_picture := (u.profile_picture).orElse (fun _ => existing.profile_picture)
        device_contact_id := (u.device_contact_id).orElse (fun _ => existing.device_contact_id)
        created_at := existing.created_at
        updated_at := now }
    ({ db with contacts := fun k => if k = cid then some updated else db.contacts k },
     some updated)

/-- Embeds `POST /contacts/{id}/move-pipeline` (`move_pipeline`): after the
owner-scoped existence check, resolve the target interval via the async
catalog and recompute `next_due` anchored at *today* (not the stored
`last_contact_date`). Returns the updated contact, or `none` (404). -/
def move_pipeline (r : Rand) (now : Int) (db : DB)
    (userStages : Option (List PipelineStageConfig)) (uid cid : String)
    (pipeline_stage : String) : DB × Option Contact :=
  match findContact db cid uid with
  | none => (db, none)
  | some _ =>
    let target := calculate_target_interval_async r userStages pipeline_stage true
    let next_due := calcNextDue r now (some now) target
    let db1 :=
      { db with contacts := contactsSetById db.contacts cid (fun c =>
          { c with pipeline_stage := pipeline_stage
                   target_interval_days := target
                   next_due := some next_due
                   updated_at := now }) }
    (db1, db1.contacts cid)

/-- Embeds `POST /contacts/{id}/interactions` (`log_interaction`): after the
owner-scoped existence check, append the interaction record, then set the
contact's `last_contact_date` to the interaction's date and recompute
`next_due` from that anchor with the contact's *stored*
`target_interval_days` (`contact.get('target_interval_days', 30)` — the
field is always present in stored documents). -/
def log_interaction (r : Rand) (now : Int) (db : DB) (uid cid : String)
    (interaction : InteractionCreate) : DB × Option Interaction :=
  match findContact db cid uid with
  | none => (db, none)
  | some contact =>
    let irec : Interaction :=
      { contact_id := cid
        user_id := uid
        interaction_type := interaction.interaction_type
        date := interaction.date
        notes := interaction.notes
        created_at := now }
    let target := contact.target_interval_days
    let next_due := calcNextDue r now (some interaction.date) target
    let db1 :=
      { db with
        interactions := db.interactions ++ [irec]
        contacts := contactsSetById db.contacts cid (fun c =>
          { c with last_contact_date := some interaction.date
                   next_due := some next_due
                   updated_at := now }) }
    (db1, some irec)

/-- Embeds `PUT /drafts/{id}/sent` (`mark_draft_sent`): after the owner-scoped
draft lookup, set the draft's status to `"sent"`; then, if the parent
contact (looked up by `_id` only) exists, set its `last_contact_date` to
"today" and recompute `next_due` from that anchor with the stored
`target_interval_days`. Returns `false` when the draft is not found. -/
def mark_draft_sent (r : Rand) (now : Int) (db : DB) (uid did : String) :
    DB × Bool :=
  match findDraft db did uid with
  | none => (db, false)
  | some draft =>
    let db1 := { db with drafts :=
                  draftsSetById db.drafts did (fun d => { d with status := "sent" }) }
    match db1.contacts draft.contact_id with
    | none => (db1, true)
    | some contact =>
      let target := contact.target_interval_days
      let next_due := calcNextDue r now (some now) target
      let db2 :=
        { db1 with contacts := contactsSetById db1.contacts draft.contact_id (fun c =>
            { c with last_contact_date := some now
                     next_due := some next_due
                     updated_at := now }) }
      (db2, true)

/-- Embeds `POST /contacts/move-to-new` (`move_contacts_to_new`): `update_many`
setting `pipeline_stage = "New"` and `next_due = None` on every contact of
the user currently in `stage_name` (leaving `last_contact_date`,
`target_interval_days` and `updated_at` untouched). -/
def move_contacts_to_new (db : DB) (uid stage_name : String) : DB :=
  { db with contacts := fun k =>
      match db.contacts k with
      | some c =>
        if c.user_id = uid ∧ c.pipeline_stage = stage_name then
          some { c with pipeline_stage := "New", next_due := none }
        else some c
      | none => none }

/-- Embeds `DELETE /contacts/{id}` (`delete_contact`): first `delete_many` the
interactions and drafts whose `contact_id` matches (no owner filter!),
then `delete_one` the contact matching `{_id, user_id}`; a zero deleted
count is the not-found outcome (`false`) — but the dependent deletions
have already happened by then. -/
def delete_contact (db : DB) (uid cid : String) : DB × Bool :=
  let db1 :=
    { db with
      interactions := db.interactions.filter (fun i => ¬ (i.contact_id = cid))
      drafts := fun k =>
        match db.drafts k with
        | some d => if d.contact_id = cid then none else some d
        | none => none }
  match db1.contacts cid with
  | some c =>
    if c.user_id = uid then
      ({ db1 with contacts := fun k => if k = cid then none else db1.contacts k }, true)
    else (db1, false)
  | none => (db1, false)

/-- The briefing buckets of `generate_ai_briefing`. -/
inductive Bucket where
  | overdue
  | dueToday
  | dueThisWeek
deriving DecidableEq

/-- Embeds `(due_date - today).days` — Python `timedelta.days` floors, also for
negative spans. -/
def days_until (now due : Int) : Int := Int.fdiv (due - now) 86400

/-- The per-contact bucketing of the `generate_ai_briefing` loop: skipped
without a `next_due`, else `overdue` when `days_until < 0`, `due_today`
when `days_until ≤ 1`, `due_this_week` when `days_until ≤ 7`, no bucket
otherwise (`if`/`elif`/`elif` chain). -/
def briefingBucket (now : Int) (c : Contact) : Option Bucket :=
  match c.next_due with
  | none => none
  | some due =>
    let d := days_until now due
    if d < 0 then some Bucket.overdue
    else if d ≤ 1 then some Bucket.dueToday
    else if d ≤ 7 then some Bucket.dueThisWeek
    else none

/-- The digest's contact query: the user's contacts with
`pipeline_stage ≠ "New"` (`{"pipeline_stage": {"$ne": "New"}}`) — the
spec's "Scheduled" contacts. -/
def briefingSelects (db : DB) (uid : String) (cid : String) : Option Contact :=
  match db.contacts cid with
  | some c => if c.user_id = uid ∧ ¬ (c.pipeline_stage = "New") then some c else none
  | none => none

/-! ## Concrete inputs used by counterexamples and witnesses -/

/-- A custom pipeline table whose owner overrides the sentinel name. -/
def newOverrideStages : List PipelineStageConfig :=
  [ { name := "New", interval_days := 5 } ]

/-- A stored contact on the Monthly cadence. -/
def exMonthlyContact : Contact :=
  { user_id := "u1", name := "Ada", pipeline_stage := "Monthly",
    last_contact_date := some 0, next_due := some (30 * 86400),
    target_interval_days := 30 }

/-- A one-contact store owned by `"u1"`. -/
def exDB : DB :=
  { contacts := fun k => if k = "c1" then some exMonthlyContact else none
    interactions := []
    drafts := fun _ => none }

/-- An update request that only moves the contact to the sentinel stage. -/
def exUpdateToNew : ContactUpdate := { pipeline_stage := some "New" }

/-- A store with no contacts but one interaction referencing id `"c1"`
(owned by a different user `"u2"`). -/
def exOrphanDB : DB :=
  { contacts := fun _ => none
    interactions := [ { contact_id := "c1", user_id := "u2",
                        interaction_type := "Phone Call", date := 0 } ]
    drafts := fun _ => none }

/-- A create request for the sentinel stage. -/
def exCreateNew : ContactCreate := { name := "Bob", pipeline_stage := "New" }

/-- A stored contact due three days from epoch. -/
def exDueSoonContact : Contact :=
  { user_id := "u1", name := "Eve", pipeline_stage := "Weekly",
    last_contact_date := some 0, next_due := some (3 * 86400),
    target_interval_days := 7 }

/-- A pending draft for contact `"c1"` owned by `"u1"`. -/
def exDraft : Draft :=
  { user_id := "u1", contact_id := "c1", contact_name := "Ada",
    draft_message := "hi" }

/-- The one-contact store together with one pending draft `"d1"`. -/
def exDBWithDraft : DB :=
  { contacts := fun k => if k = "c1" then some exMonthlyContact else none
    interactions := []
    drafts := fun k => if k = "d1" then some exDraft else none }

/-- An interaction request dated ten days after epoch. -/
def exInteraction : InteractionCreate :=
  { interaction_type := "Email", date := 10 * 86400 }

/-! ## Helper lemmas -/

theorem findContact_eq_some {db : DB} {cid uid : String} {c : Contact}
    (h : findContact db cid uid = some c) :
    db.contacts cid = some c ∧ c.user_id = uid := by
  unfold findContact at h
  split at h
  next c0 hdb =>
    by_cases hu : c0.user_id = uid
    · rw [if_pos hu] at h
      injection h with h'
      subst h'
      exact ⟨hdb, hu⟩
    · rw [if_neg hu] at h
      exact absurd h (by simp)
  next hdb => exact absurd h (by simp)

theorem findDraft_eq_some {db : DB} {did uid : String} {d : Draft}
    (h : findDraft db did uid = some d) :
    db.drafts did = some d ∧ d.user_id = uid := by
  unfold findDraft at h
  split at h
  next d0 hdb =>
    by_cases hu : d0.user_id = uid
    · rw [if_pos hu] at h
      injection h with h'
      subst h'
      exact ⟨hdb, hu⟩
    · rw [if_neg hu] at h
      exact absurd h (by simp)
  next hdb => exact absurd h (by simp)

theorem randomFactor_le_seven {r : Rand} {n : Int} (h : n ≤ 7) :
    randomFactor r n = 0 := by
  simp [randomFactor, h]

theorem randomFactor_mid {r : Rand} (hr : r.ok) {n : Int} (h7 : ¬ n ≤ 7)
    (h30 : n ≤ 30) : -1 ≤ randomFactor r n ∧ randomFactor r n ≤ 1 := by
  have := hr (-1) 1 (by norm_num)
  simp [randomFactor, h7, h30]
  exact this

theorem randomFactor_large {r : Rand} (hr : r.ok) {n : Int} (h7 : ¬ n ≤ 7)
    (h30 : ¬ n ≤ 30) : -3 ≤ randomFactor r n ∧ randomFactor r n ≤ 3 := by
  have := hr (-3) 3 (by norm_num)
  simp [randomFactor, h7, h30]
  exact this

theorem calcNextDue_floor (r : Rand) (now : Int) (lcd : Option Int)
    (n : Int) : lcd.getD now + 86400 ≤ calcNextDue r now lcd n := by
  show lcd.getD now + 86400 ≤
    lcd.getD now + max (n + randomFactor r n) 1 * 86400
  have h1 : (1 : Int) ≤ max (n + randomFactor r n) 1 := le_max_right _ _
  have h2 : (1 : Int) * 86400 ≤ max (n + randomFactor r n) 1 * 86400 :=
    mul_le_mul_of_nonneg_right h1 (by norm_num)
  linarith

/-! ## Claims -/

/-- C2 (confirmed): for every anchor and integer `interval_days`, the
proportional calculator returns `anchor + max (interval + jitter) 1` days,
where the jitter is `0` for intervals `≤ 7`, lies in `[-1, 1]` for
intervals in `[8, 30]`, and lies in `[-3, 3]` for intervals `> 30`
(uniformity of `randint` is a property of the external randomness
primitive, modelled here as an arbitrary in-range draw); consequently the
result is at least one day after the anchor. -/
theorem c2_proportional_due_date (r : Rand) (hr : r.ok)
    (now anchor interval : Int) :
    ∃ jitter : Int,
      calcNextDue r now (some anchor) interval =
        anchor + max (interval + jitter) 1 * 86400 ∧
      (interval ≤ 7 → jitter = 0) ∧
      (8 ≤ interval → interval ≤ 30 → -1 ≤ jitter ∧ jitter ≤ 1) ∧
      (30 < interval → -3 ≤ jitter ∧ jitter ≤ 3) ∧
      anchor + 86400 ≤ calcNextDue r now (some anchor) interval := by
  refine ⟨randomFactor r interval, rfl, ?_, ?_, ?_, ?_⟩
  · exact fun h => randomFactor_le_seven h
  · intro h8 h30
    exact randomFactor_mid hr (by omega) h30
  · intro h30
    by_cases h7 : interval ≤ 7
    · omega
    · exact randomFactor_large hr h7 (by omega)
  · have := calcNextDue_floor r now (some anchor) interval
    simpa using this

/-- Witness for C2 at interval 14 and anchor 0. -/
theorem c2_proportional_due_date_witness :
    ∃ jitter : Int,
      calcNextDue loRand 0 (some 0) 14 =
        0 + max (14 + jitter) 1 * 86400 ∧
      ((14 : Int) ≤ 7 → jitter = 0) ∧
      ((8 : Int) ≤ 14 → (14 : Int) ≤ 30 → -1 ≤ jitter ∧ jitter ≤ 1) ∧
      ((30 : Int) < 14 → -3 ≤ jitter ∧ jitter ≤ 3) ∧
      (0 : Int) + 86400 ≤ calcNextDue loRand 0 (some 0) 14 :=
  c2_proportional_due_date loRand loRand_ok 0 0 14

/-- C8 (confirmed): the calculator is a total function of its inputs (the
embedding returns a value for every string, the bare `except` in the
source preventing any escape of a parse failure), and whenever
`last_contact_date` is absent (`None`), empty, or unparseable, the anchor
falls back to "now" and a due date is still produced. -/
theorem c8_calculator_totality (parse : String → Option Int) (r : Rand)
    (now interval : Int) (s : Option String)
    (h : s = none ∨ s = some "" ∨ ∃ str, s = some str ∧ parse str = none) :
    calculate_next_due_str parse r now s interval =
      now + max (interval + randomFactor r interval) 1 * 86400 := by
  rcases h with h | h | ⟨str, hs, hp⟩
  · subst h; rfl
  · subst h; rfl
  · subst hs
    by_cases he : str = "" <;>
      simp [calculate_next_due_str, he, hp]

/-- Witness for C8 on an unparseable date string. -/
theorem c8_calculator_totality_witness :
    calculate_next_due_str (fun _ => none) loRand 5 (some "not-a-date") 10 =
      5 + max (10 + randomFactor loRand 10) 1 * 86400 :=
  c8_calculator_totality (fun _ => none) loRand 5 10 (some "not-a-date")
    (Or.inr (Or.inr ⟨"not-a-date", rfl, rfl⟩))

/-- C3 (counterexample): with a custom pipeline table containing an entry
named "New" with `interval_days = 5`, the async catalog resolves "New" to
5, not 0 — the custom scan runs before any sentinel handling. -/
theorem c3_sentinel_override_cex :
    calculate_target_interval_async loRand (some newOverrideStages) "New" true = 5 ∧
    calculate_target_interval_async loRand (some newOverrideStages) "New" true ≠ 0 := by
  constructor
  · rfl
  · decide

/-- C3 (amended): resolving "New" yields 0 whenever the owner scope has no
custom entry named "New" — no user scope, an empty custom table, or a
table without a "New" entry — and the sync catalog always resolves "New"
to 0; a custom entry named "New" overrides the sentinel (see the
counterexample). -/
theorem c3_sentinel_default_resolution (r : Rand)
    (us : Option (List PipelineStageConfig))
    (h : us = none ∨ ∃ ss, us = some ss ∧ (ss = [] ∨ lookupStage ss "New" = none)) :
    calculate_target_interval_async r us "New" true = 0 ∧
    calculate_target_interval "New" = 0 := by
  refine ⟨?_, rfl⟩
  rcases h with h | ⟨ss, hss, h⟩
  · subst h; rfl
  · subst hss
    rcases h with h | h
    · subst h; rfl
    · by_cases he : ss = []
      · subst he; rfl
      · simp [calculate_target_interval_async, he, h]
        rfl

/-- Witness for C3 amended: the default scope resolves "New" to 0. -/
theorem c3_sentinel_default_resolution_witness :
    calculate_target_interval_async loRand none "New" true = 0 ∧
    calculate_target_interval "New" = 0 :=
  c3_sentinel_default_resolution loRand none (Or.inl rfl)

/-- C9 (confirmed): for every contact the digest loop examines that has a
non-null `next_due`, with `days_until = (next_due - now).days`, the
contact lands in exactly one bucket: `overdue` iff `days_until < 0`,
`due_today` iff `0 ≤ days_until ≤ 1`, `due_this_week` iff
`1 < days_until ≤ 7`, and in no bucket iff `days_until > 7`. -/
theorem c9_briefing_buckets (now : Int) (c : Contact) (due : Int)
    (h : c.next_due = some due) :
    (briefingBucket now c = some Bucket.overdue ↔ days_until now due < 0) ∧
    (briefingBucket now c = some Bucket.dueToday ↔
      0 ≤ days_until now due ∧ days_until now due ≤ 1) ∧
    (briefingBucket now c = some Bucket.dueThisWeek ↔
      1 < days_until now due ∧ days_until now due ≤ 7) ∧
    (briefingBucket now c = none ↔ 7 < days_until now due) := by
  unfold briefingBucket
  rw [h]
  by_cases h0 : days_until now due < 0 <;>
    by_cases h1 : days_until now due ≤ 1 <;>
      by_cases h7 : days_until now due ≤ 7 <;>
        simp [h0, h1, h7] <;> omega

/-- Witness for C9 on a contact due three days out. -/
theorem c9_briefing_buckets_witness :
    (briefingBucket 0 exDueSoonContact = some Bucket.overdue ↔
      days_until 0 (3 * 86400) < 0) ∧
    (briefingBucket 0 exDueSoonContact = some Bucket.dueToday ↔
      0 ≤ days_until 0 (3 * 86400) ∧ days_until 0 (3 * 86400) ≤ 1) ∧
    (briefingBucket 0 exDueSoonContact = some Bucket.dueThisWeek ↔
      1 < days_until 0 (3 * 86400) ∧ days_until 0 (3 * 86400) ≤ 7) ∧
    (briefingBucket 0 exDueSoonContact = none ↔ 7 < days_until 0 (3 * 86400)) :=
  c9_briefing_buckets 0 exDueSoonContact (3 * 86400) rfl

/-- C5 (confirmed): the explicit stage move recomputes `next_due` with
"now" as the anchor — the formula depends only on "now" and the resolved
interval, never on the stored `last_contact_date`, which is left untouched
— and when the owner scope resolves "Weekly" to 7 (as the default catalog
does), moving any contact to "Weekly" yields `next_due` exactly 7 days
after the move time (interval `≤ 7` ⟹ zero jitter). -/
theorem c5_move_pipeline_anchor_reset (r : Rand) (now : Int) (db : DB)
    (us : Option (List PipelineStageConfig)) (uid cid : String) (c : Contact)
    (hfind : findContact db cid uid = some c)
    (hW : calculate_target_interval_async r us "Weekly" true = 7) :
    (∀ stage : String,
      ∃ c', (move_pipeline r now db us uid cid stage).2 = some c' ∧
        c'.next_due = some (now +
          max (calculate_target_interval_async r us stage true +
            randomFactor r (calculate_target_interval_async r us stage true))
            1 * 86400) ∧
        c'.last_contact_date = c.last_contact_date) ∧
    (∃ c', (move_pipeline r now db us uid cid "Weekly").2 = some c' ∧
      c'.pipeline_stage = "Weekly" ∧
      c'.target_interval_days = 7 ∧
      c'.next_due = some (now + 7 * 86400) ∧
      c'.last_contact_date = c.last_contact_date) := by
  obtain ⟨hc, -⟩ := findContact_eq_some hfind
  constructor
  · intro stage
    refine ⟨{ c with
        pipeline_stage := stage
        target_interval_days := calculate_target_interval_async r us stage true
        next_due := some (calcNextDue r now (some now)
          (calculate_target_interval_async r us stage true))
        updated_at := now }, ?_, rfl, rfl⟩
    unfold move_pipeline
    rw [hfind]
    simp [contactsSetById, hc]
  · refine ⟨{ c with
        pipeline_stage := "Weekly"
        target_interval_days := calculate_target_interval_async r us "Weekly" true
        next_due := some (calcNextDue r now (some now)
          (calculate_target_interval_async r us "Weekly" true))
        updated_at := now }, ?_, rfl, ?_, ?_, rfl⟩
    · unfold move_pipeline
      rw [hfind]
      simp [contactsSetById, hc]
    · exact hW
    · show some (calcNextDue r now (some now)
        (calculate_target_interval_async r us "Weekly" true)) =
          some (now + 7 * 86400)
      rw [hW]
      show some (now + max ((7 : Int) + randomFactor r 7) 1 * 86400) =
        some (now + 7 * 86400)
      rw [randomFactor_le_seven (by norm_num)]
      norm_num

/-- Witness for C5: moving the concrete Monthly contact to "Weekly" under
the default catalog lands exactly 7 days out, with the stale
`last_contact_date` (epoch) untouched. -/
theorem c5_move_pipeline_anchor_reset_witness :
    ∃ c', (move_pipeline loRand 1000 exDB none "u1" "c1" "Weekly").2 = some c' ∧
      c'.pipeline_stage = "Weekly" ∧
      c'.target_interval_days = 7 ∧
      c'.next_due = some (1000 + 7 * 86400) ∧
      c'.last_contact_date = exMonthlyContact.last_contact_date :=
  (c5_move_pipeline_anchor_reset loRand 1000 exDB none "u1" "c1"
    exMonthlyContact rfl rfl).2

/-- C6 (confirmed): marking an existing draft sent sets its status to
"sent", sets the parent contact's `last_contact_date` to the mark-sent
time, and recomputes the contact's `next_due` from that anchor with the
contact's stored `target_interval_days` through the proportional
calculator, so the jitter bound and the one-day floor hold. -/
theorem c6_draft_sent_propagation (r : Rand) (hr : r.ok) (now : Int)
    (db : DB) (uid did : String) (draft : Draft) (contact : Contact)
    (hd : findDraft db did uid = some draft)
    (hc : db.contacts draft.contact_id = some contact) :
    (mark_draft_sent r now db uid did).2 = true ∧
    (mark_draft_sent r now db uid did).1.drafts did =
      some { draft with status := "sent" } ∧
    ∃ c', (mark_draft_sent r now db uid did).1.contacts draft.contact_id =
        some c' ∧
      c'.last_contact_date = some now ∧
      ∃ jitter : Int,
        c'.next_due =
          some (now + max (contact.target_interval_days + jitter) 1 * 86400) ∧
        (contact.target_interval_days ≤ 7 → jitter = 0) ∧
        (8 ≤ contact.target_interval_days → contact.target_interval_days ≤ 30 →
          -1 ≤ jitter ∧ jitter ≤ 1) ∧
        (30 < contact.target_interval_days → -3 ≤ jitter ∧ jitter ≤ 3) ∧
        (∀ v, c'.next_due = some v → now + 86400 ≤ v) := by
  obtain ⟨hdd, -⟩ := findDraft_eq_some hd
  have hres : mark_draft_sent r now db uid did =
      ({ db with
          drafts := draftsSetById db.drafts did
            (fun d => { d with status := "sent" })
          contacts := contactsSetById db.contacts draft.contact_id (fun c =>
            { c with last_contact_date := some now
                     next_due := some (calcNextDue r now (some now)
                       contact.target_interval_days)
                     updated_at := now }) }, true) := by
    unfold mark_draft_sent
    rw [hd]
    simp only [hc]
  rw [hres]
  refine ⟨rfl, ?_, ?_⟩
  · show draftsSetById db.drafts did (fun d => { d with status := "sent" }) did =
      some { draft with status := "sent" }
    simp [draftsSetById, hdd]
  · refine ⟨{ contact with
        last_contact_date := some now
        next_due := some (calcNextDue r now (some now)
          contact.target_interval_days)
        updated_at := now }, ?_, rfl,
      randomFactor r contact.target_interval_days, rfl, ?_, ?_, ?_, ?_⟩
    · show contactsSetById db.contacts draft.contact_id _ draft.contact_id = _
      simp [contactsSetById, hc]
    · exact fun h => randomFactor_le_seven h
    · intro h8 h30
      exact randomFactor_mid hr (by omega) h30
    · intro h30
      exact randomFactor_large hr (by omega) (by omega)
    · intro v hv
      injection hv with hv
      subst hv
      have := calcNextDue_floor r now (some now) contact.target_interval_days
      simpa using this

/-- Witness for C6 on the concrete store with one pending draft. -/
theorem c6_draft_sent_propagation_witness :
    (mark_draft_sent loRand 1000 exDBWithDraft "u1" "d1").2 = true ∧
    (mark_draft_sent loRand 1000 exDBWithDraft "u1" "d1").1.drafts "d1" =
      some { exDraft with status := "sent" } ∧
    ∃ c', (mark_draft_sent loRand 1000 exDBWithDraft "u1" "d1").1.contacts
        exDraft.contact_id = some c' ∧
      c'.last_contact_date = some 1000 ∧
      ∃ jitter : Int,
        c'.next_due = some (1000 +
          max (exMonthlyContact.target_interval_days + jitter) 1 * 86400) ∧
        (exMonthlyContact.target_interval_days ≤ 7 → jitter = 0) ∧
        (8 ≤ exMonthlyContact.target_interval_days →
          exMonthlyContact.target_interval_days ≤ 30 →
          -1 ≤ jitter ∧ jitter ≤ 1) ∧
        (30 < exMonthlyContact.target_interval_days →
          -3 ≤ jitter ∧ jitter ≤ 3) ∧
        (∀ v, c'.next_due = some v → 1000 + 86400 ≤ v) :=
  c6_draft_sent_propagation loRand loRand_ok 1000 exDBWithDraft "u1" "d1"
    exDraft exMonthlyContact rfl rfl

/-- C7 (confirmed): logging an interaction on an existing contact appends
the interaction record and updates the contact so that
`last_contact_date` equals the interaction's date and `next_due` is
recomputed from that date as anchor using the contact's stored
`target_interval_days` (no catalog lookup appears in the formula). -/
theorem c7_interaction_logging (r : Rand) (now : Int) (db : DB)
    (uid cid : String) (i : InteractionCreate) (contact : Contact)
    (hfind : findContact db cid uid = some contact) :
    (log_interaction r now db uid cid i).2 =
      some { contact_id := cid, user_id := uid,
             interaction_type := i.interaction_type, date := i.date,
             notes := i.notes, created_at := now } ∧
    (log_interaction r now db uid cid i).1.interactions =
      db.interactions ++
        [{ contact_id := cid, user_id := uid,
           interaction_type := i.interaction_type, date := i.date,
           notes := i.notes, created_at := now }] ∧
    ∃ c', (log_interaction r now db uid cid i).1.contacts cid = some c' ∧
      c'.last_contact_date = some i.date ∧
      c'.next_due = some (i.date +
        max (contact.target_interval_days +
          randomFactor r contact.target_interval_days) 1 * 86400) ∧
      c'.pipeline_stage = contact.pipeline_stage ∧
      c'.target_interval_days = contact.target_interval_days := by
  obtain ⟨hc, -⟩ := findContact_eq_some hfind
  have hres : log_interaction r now db uid cid i =
      ({ db with
          interactions := db.interactions ++
            [{ contact_id := cid, user_id := uid,
               interaction_type := i.interaction_type, date := i.date,
               notes := i.notes, created_at := now }]
          contacts := contactsSetById db.contacts cid (fun c =>
            { c with last_contact_date := some i.date
                     next_due := some (calcNextDue r now (some i.date)
                       contact.target_interval_days)
                     updated_at := now }) },
        some { contact_id := cid, user_id := uid,
               interaction_type := i.interaction_type, date := i.date,
               notes := i.notes, created_at := now }) := by
    unfold log_interaction
    rw [hfind]
  rw [hres]
  refine ⟨rfl, rfl, ?_⟩
  refine ⟨{ contact with
      last_contact_date := some i.date
      next_due := some (calcNextDue r now (some i.date)
        contact.target_interval_days)
      updated_at := now }, ?_, rfl, rfl, rfl, rfl⟩
  show contactsSetById db.contacts cid _ cid = _
  simp [contactsSetById, hc]

/-- Witness for C7: an email logged ten days after epoch on the concrete
Monthly contact. -/
theorem c7_interaction_logging_witness :
    (log_interaction loRand 1000 exDB "u1" "c1" exInteraction).2 =
      some { contact_id := "c1", user_id := "u1",
             interaction_type := exInteraction.interaction_type,
             date := exInteraction.date, notes := exInteraction.notes,
             created_at := 1000 } ∧
    (log_interaction loRand 1000 exDB "u1" "c1" exInteraction).1.interactions =
      exDB.interactions ++
        [{ contact_id := "c1", user_id := "u1",
           interaction_type := exInteraction.interaction_type,
           date := exInteraction.date, notes := exInteraction.notes,
           created_at := 1000 }] ∧
    ∃ c', (log_interaction loRand 1000 exDB "u1" "c1"
        exInteraction).1.contacts "c1" = some c' ∧
      c'.last_contact_date = some exInteraction.date ∧
      c'.next_due = some (exInteraction.date +
        max (exMonthlyContact.target_interval_days +
          randomFactor loRand exMonthlyContact.target_interval_days) 1 * 86400) ∧
      c'.pipeline_stage = exMonthlyContact.pipeline_stage ∧
      c'.target_interval_days = exMonthlyContact.target_interval_days :=
  c7_interaction_logging loRand 1000 exDB "u1" "c1" exInteraction
    exMonthlyContact rfl

/-- C10 (confirmed): in a contact update, a field submitted as null (or
omitted — pydantic maps both to `None`, which the endpoint filters out)
leaves the stored field unchanged, a field submitted with a value is set
to exactly that value (so no stored value can be cleared back to null),
and nothing else changes: other contacts, interactions and drafts are
untouched, `user_id`/`created_at` are preserved, and only `updated_at`
plus — when `pipeline_stage` or `last_contact_date` was submitted — the
derived `target_interval_days`/`next_due` are additionally written. -/
theorem c10_update_null_fields_frame (r : Rand) (now : Int) (db : DB)
    (uid cid : String) (u : ContactUpdate) (existing : Contact)
    (hfind : findContact db cid uid = some existing) :
    ∃ c', (update_contact r now db uid cid u).2 = some c' ∧
      (update_contact r now db uid cid u).1.contacts cid = some c' ∧
      (∀ k, ¬ k = cid →
        (update_contact r now db uid cid u).1.contacts k = db.contacts k) ∧
      (update_contact r now db uid cid u).1.interactions = db.interactions ∧
      (update_contact r now db uid cid u).1.drafts = db.drafts ∧
      c'.user_id = existing.user_id ∧
      c'.created_at = existing.created_at ∧
      c'.updated_at = now ∧
      (u.name = none → c'.name = existing.name) ∧
      (∀ v, u.name = some v → c'.name = v) ∧
      (u.phone = none → c'.phone = existing.phone) ∧
      (∀ v, u.phone = some v → c'.phone = some v) ∧
      (u.email = none → c'.email = existing.email) ∧
      (∀ v, u.email = some v → c'.email = some v) ∧
      (u.job = none → c'.job = existing.job) ∧
      (∀ v, u.job = some v → c'.job = some v) ∧
      (u.location = none → c'.location = existing.location) ∧
      (∀ v, u.location = some v → c'.location = some v) ∧
      (u.academic_degree = none → c'.academic_degree = existing.academic_degree) ∧
      (∀ v, u.academic_degree = some v → c'.academic_degree = some v) ∧
      (u.birthday = none → c'.birthday = existing.birthday) ∧
      (∀ v, u.birthday = some v → c'.birthday = some v) ∧
      (u.hobbies = none → c'.hobbies = existing.hobbies) ∧
      (∀ v, u.hobbies = some v → c'.hobbies = some v) ∧
      (u.favorite_food = none → c'.favorite_food = existing.favorite_food) ∧
      (∀ v, u.favorite_food = some v → c'.favorite_food = some v) ∧
      (u.how_we_met = none → c'.how_we_met = existing.how_we_met) ∧
      (∀ v, u.how_we_met = some v → c'.how_we_met = some v) ∧
      (u.pipeline_stage = none → c'.pipeline_stage = existing.pipeline_stage) ∧
      (∀ v, u.pipeline_stage = some v → c'.pipeline_stage = v) ∧
      (u.groups = none → c'.groups = existing.groups) ∧
      (∀ v, u.groups = some v → c'.groups = v) ∧
      (u.language = none → c'.language = existing.language) ∧
      (∀ v, u.language = some v → c'.language = v) ∧
      (u.tone = none → c'.tone = existing.tone) ∧
      (∀ v, u.tone = some v → c'.tone = v) ∧
      (u.example_message = none → c'.example_message = existing.example_message) ∧
      (∀ v, u.example_message = some v → c'.example_message = some v) ∧
      (u.conversation_screenshots = none →
        c'.conversation_screenshots = existing.conversation_screenshots) ∧
      (∀ v, u.conversation_screenshots = some v →
        c'.conversation_screenshots = v) ∧
      (u.notes = none → c'.notes = existing.notes) ∧
      (∀ v, u.notes = some v → c'.notes = some v) ∧
      (u.last_contact_date = none →
        c'.last_contact_date = existing.last_contact_date) ∧
      (∀ v, u.last_contact_date = some v → c'.last_contact_date = some v) ∧
      (u.profile_picture = none → c'.profile_picture = existing.profile_picture) ∧
      (∀ v, u.profile_picture = some v → c'.profile_picture = some v) ∧
      (u.device_contact_id = none →
        c'.device_contact_id = existing.device_contact_id) ∧
      (∀ v, u.device_contact_id = some v → c'.device_contact_id = some v) ∧
      (u.pipeline_stage = none → u.last_contact_date = none →
        c'.next_due = existing.next_due ∧
        c'.target_interval_days = existing.target_interval_days) := by
  unfold update_contact
  rw [hfind]
  refine ⟨_, rfl, ?_, ?_, rfl, rfl, rfl, rfl, rfl, ?_⟩
  · simp
  · intro k hk
    simp [hk]
  all_goals
    refine ⟨?_, ?_, ?_, ?_, ?_, ?_, ?_, ?_, ?_, ?_, ?_, ?_, ?_, ?_, ?_, ?_,
      ?_, ?_, ?_, ?_, ?_, ?_, ?_, ?_, ?_, ?_, ?_, ?_, ?_, ?_, ?_, ?_, ?_,
      ?_, ?_, ?_, ?_, ?_, ?_, ?_, ?_⟩ <;>
    · intros
      simp_all [Option.orElse]

/-- Witness for C10: updating only the notes of the concrete contact. -/
theorem c10_update_null_fields_frame_witness :
    ∃ c', (update_contact loRand 5 exDB "u1" "c1"
        { notes := some "hi" }).2 = some c' ∧
      c'.name = exMonthlyContact.name ∧
      c'.notes = some "hi" ∧
      c'.next_due = exMonthlyContact.next_due ∧
      c'.updated_at = 5 := by
  obtain ⟨c', h1, -, -, -, -, -, -, h8, h9, -, -, -, -, -, -, -, -, -, -,
      -, -, -, -, -, -, -, -, -, -, -, -, -, -, -, -, -, -, -, -, -, -,
      hnotes, -, -, -, -, -, -, hlast⟩ :=
    c10_update_null_fields_frame loRand 5 exDB "u1" "c1"
      { notes := some "hi" } exMonthlyContact rfl
  exact ⟨c', h1, h9 rfl, hnotes "hi" rfl, (hlast rfl rfl).1, h8⟩

/-- C1 (counterexample): updating a stored Monthly contact with
`pipeline_stage = "New"` leaves a contact whose stage is the sentinel but
whose `next_due` is non-null (the recompute path runs the calculator with
interval 0, and the one-day floor produces anchor + 1 day), so the
sentinel invariant is not preserved by the field-update operation. -/
theorem c1_sentinel_invariant_cex :
    ¬ (∀ c' : Contact,
        (update_contact loRand 1000 exDB "u1" "c1" exUpdateToNew).2 = some c' →
        (c'.next_due = none ↔ c'.pipeline_stage = "New")) := by
  intro h
  exact absurd
    (h ((update_contact loRand 1000 exDB "u1" "c1" exUpdateToNew).2.getD
        exMonthlyContact) (by decide))
    (by decide)

/-- C1 (amended): creation and the bulk move-to-New establish the sentinel
invariant (`next_due` null iff stage `"New"`), while the other core
operations — field update with a recompute trigger, explicit stage move,
interaction logging, draft-sent confirmation — always store a *non-null*
`next_due`, so they preserve the invariant only when the resulting stage
is not the sentinel; in particular updating or moving a contact to
`"New"` yields stage `"New"` with a non-null `next_due`. -/
theorem c1_sentinel_invariant_amended (r : Rand) (now : Int) :
    (∀ (db : DB) (uid : String) (cc : ContactCreate) (newId : String),
      ((create_contact r now db uid cc newId).2.next_due = none ↔
        (create_contact r now db uid cc newId).2.pipeline_stage = "New")) ∧
    (∀ (db : DB) (uid stage k : String) (c : Contact),
      db.contacts k = some c → c.user_id = uid → c.pipeline_stage = stage →
      (move_contacts_to_new db uid stage).contacts k =
        some { c with pipeline_stage := "New", next_due := none }) ∧
    (∀ (db : DB) (uid cid : String) (u : ContactUpdate) (c' : Contact),
      (u.pipeline_stage.isSome || u.last_contact_date.isSome) = true →
      (update_contact r now db uid cid u).2 = some c' →
      c'.next_due ≠ none) ∧
    (∀ (db : DB) (us : Option (List PipelineStageConfig))
        (uid cid stage : String) (c' : Contact),
      (move_pipeline r now db us uid cid stage).2 = some c' →
      c'.next_due ≠ none) ∧
    (∀ (db : DB) (uid cid : String) (i : InteractionCreate)
        (contact c' : Contact),
      findContact db cid uid = some contact →
      (log_interaction r now db uid cid i).1.contacts cid = some c' →
      c'.next_due ≠ none) ∧
    (∀ (db : DB) (uid did : String) (draft : Draft) (contact c' : Contact),
      findDraft db did uid = some draft →
      db.contacts draft.contact_id = some contact →
      (mark_draft_sent r now db uid did).1.contacts draft.contact_id =
        some c' →
      c'.next_due ≠ none) := by
  refine ⟨?_, ?_, ?_, ?_, ?_, ?_⟩
  · intro db uid cc newId
    unfold create_contact
    by_cases hn : cc.pipeline_stage = "New" <;> simp [hn]
  · intro db uid stage k c hdb hu hs
    unfold move_contacts_to_new
    simp only [hdb]
    simp [hu, hs]
  · intro db uid cid u c' hrec h2
    unfold update_contact at h2
    cases hfind : findContact db cid uid with
    | none => rw [hfind] at h2; exact absurd h2 (by simp)
    | some existing =>
      rw [hfind] at h2
      simp only at h2
      injection h2 with h2
      subst h2
      simp [hrec]
  · intro db us uid cid stage c' h2
    unfold move_pipeline at h2
    cases hfind : findContact db cid uid with
    | none => rw [hfind] at h2; exact absurd h2 (by simp)
    | some c0 =>
      rw [hfind] at h2
      simp only [contactsSetById] at h2
      rw [if_pos trivial] at h2
      rw [Option.map_eq_some'] at h2
      obtain ⟨c1, -, h2⟩ := h2
      subst h2
      simp
  · intro db uid cid i contact c' hfind h2
    unfold log_interaction at h2
    rw [hfind] at h2
    simp only [contactsSetById] at h2
    rw [if_pos trivial] at h2
    rw [Option.map_eq_some'] at h2
    obtain ⟨c1, -, h2⟩ := h2
    subst h2
    simp
  · intro db uid did draft contact c' hd hc h2
    unfold mark_draft_sent at h2
    rw [hd] at h2
    simp only [hc] at h2
    simp only [contactsSetById] at h2
    rw [if_pos trivial] at h2
    rw [Option.map_eq_some'] at h2
    obtain ⟨c1, -, h2⟩ := h2
    subst h2
    simp

/-- Witness for C1 amended: creating a contact on the sentinel stage
satisfies the invariant. -/
theorem c1_sentinel_invariant_amended_witness :
    ((create_contact loRand 0 exDB "u1" exCreateNew "k9").2.next_due = none ↔
      (create_contact loRand 0 exDB "u1" exCreateNew "k9").2.pipeline_stage =
        "New") :=
  (c1_sentinel_invariant_amended loRand 0).1 exDB "u1" exCreateNew "k9"

/-- C4 (counterexample): deleting contact id `"c1"` for user `"u1"` in a
store that has no such contact signals not-found (`false`), yet the
dependent interaction referencing `"c1"` (owned by a different user!) has
already been deleted — a side effect on the not-found path. -/
theorem c4_notfound_atomicity_cex :
    (delete_contact exOrphanDB "u1" "c1").2 = false ∧
    (delete_contact exOrphanDB "u1" "c1").1.interactions = [] ∧
    exOrphanDB.interactions ≠ [] := by
  refine ⟨rfl, rfl, ?_⟩
  decide

/-- C4 (amended): the lookup-by-id operations other than deletion
(field update, stage move, interaction logging, draft-sent) perform no
writes at all on not-found; contact deletion on not-found signals the
condition and leaves the contacts collection unchanged, but it has
already deleted every Interaction and Draft record carrying the requested
contact id (regardless of owner), because the `delete_many` calls run
before the existence check. -/
theorem c4_notfound_behavior (r : Rand) (now : Int) :
    (∀ (db : DB) (uid cid : String) (u : ContactUpdate),
      findContact db cid uid = none →
      update_contact r now db uid cid u = (db, none)) ∧
    (∀ (db : DB) (us : Option (List PipelineStageConfig))
        (uid cid stage : String),
      findContact db cid uid = none →
      move_pipeline r now db us uid cid stage = (db, none)) ∧
    (∀ (db : DB) (uid cid : String) (i : InteractionCreate),
      findContact db cid uid = none →
      log_interaction r now db uid cid i = (db, none)) ∧
    (∀ (db : DB) (uid did : String),
      findDraft db did uid = none →
      mark_draft_sent r now db uid did = (db, false)) ∧
    (∀ (db : DB) (uid cid : String),
      findContact db cid uid = none →
      (delete_contact db uid cid).2 = false ∧
      (delete_contact db uid cid).1.contacts = db.contacts ∧
      (delete_contact db uid cid).1.interactions =
        db.interactions.filter (fun i => ¬ (i.contact_id = cid)) ∧
      ∀ k, (delete_contact db uid cid).1.drafts k =
        (match db.drafts k with
         | some d => if d.contact_id = cid then none else some d
         | none => none)) := by
  refine ⟨?_, ?_, ?_, ?_, ?_⟩
  · intro db uid cid u h
    unfold update_contact
    rw [h]
  · intro db us uid cid stage h
    unfold move_pipeline
    rw [h]
  · intro db uid cid i h
    unfold log_interaction
    rw [h]
  · intro db uid did h
    unfold mark_draft_sent
    rw [h]
  · intro db uid cid h
    have hmatch : db.contacts cid = none ∨
        ∃ c, db.contacts cid = some c ∧ ¬ c.user_id = uid := by
      unfold findContact at h
      split at h
      next c0 hdb =>
        by_cases hu : c0.user_id = uid
        · rw [if_pos hu] at h
          exact absurd h (by simp)
        · exact Or.inr ⟨c0, hdb, hu⟩
      next hdb => exact Or.inl hdb
    unfold delete_contact
    rcases hmatch with hdb | ⟨c, hdb, hu⟩
    · simp [hdb]
    · simp [hdb, hu]

/-- Witness for C4 amended: a stage move for an id absent from the store
returns the store unchanged with the not-found marker. -/
theorem c4_notfound_behavior_witness :
    move_pipeline loRand 0 exDB none "u9" "c9" "Weekly" = (exDB, none) :=
  (c4_notfound_behavior loRand 0).2.1 exDB none "u9" "c9" "Weekly" rfl

end SynchroConnect
